import Mathlib

/-!
Verification of the expense-splitting and settlement core of the
`republica_facil_backend` repository.

The relational rows (`users`, `republicas`, `membros`, `quartos`, `despesas`,
`pagamentos` from `republica_facil/model/models.py` together with the alembic
migrations, which add `ativo` / `data_saida` to `membros`) are embedded as Lean
structures; the database is a record of row lists.  SQLAlchemy `session.scalar
(select(X).where(p))` becomes `List.find?`, `func.count` becomes
`List.countP`, a row UPDATE through the ORM identity map becomes a `List.map`
keyed on the primary key, and each `session.commit()` appends a snapshot of
the then-current state to an explicit commit trace.  Money amounts are
embedded as exact rationals (`ℚ`); Python floats only ever divide an expense
total by a member count here, and no float comparison occurs in the code, so
the rational embedding is faithful to the arithmetic structure.

The route handlers of `republica_facil/despesas/router.py` and
`republica_facil/membros/router.py` are translated branch by branch,
preserving the order of the checks and the exact raise sites, the
fall-through `raise` at the end of the member handlers included.
-/

namespace RepublicaFacil

/-- Expense category enumeration (`TipoDespesa` in `model/models.py`). -/
inductive TipoDespesa where
  | luz | agua | internet | gas | condominio | limpeza | manutencao | outros
deriving DecidableEq, Repr

/-- Expense status enumeration (`StatusDespesa` in `model/models.py`). -/
inductive StatusDespesa where
  | vencida | pendente | pago
deriving DecidableEq, Repr

/-- Row of the `users` table (owner accounts). Only fields read by the
embedded handlers are kept. -/
structure User where
  id : Nat
deriving DecidableEq, Repr

/-- Row of the `republicas` table. -/
structure Republica where
  id : Nat
  nome : String
  user_id : Nat
deriving DecidableEq, Repr

/-- Row of the `membros` table, after the migrations that made `quarto_id`
nullable and added `ativo` (server default true) and `data_saida`.
Timestamps are abstract `Nat` instants. -/
structure Membro where
  id : Nat
  fullname : String
  email : String
  telephone : String
  republica_id : Nat
  quarto_id : Option Nat
  ativo : Bool
  data_saida : Option Nat
deriving DecidableEq, Repr

/-- Row of the `quartos` table. -/
structure Quarto where
  id : Nat
  numero : Nat
  republica_id : Nat
deriving DecidableEq, Repr

/-- Row of the `despesas` table; `valor_total` is the money amount, the due
date is an abstract `Nat`. -/
structure Despesa where
  id : Nat
  descricao : String
  valor_total : ℚ
  data_vencimento : Nat
  categoria : TipoDespesa
  republica_id : Nat
  status : StatusDespesa
deriving DecidableEq, Repr

/-- Row of the `pagamentos` table. -/
structure Pagamento where
  id : Nat
  valor_pago : ℚ
  data_pagamento : Nat
  membro_id : Nat
  despesa_id : Nat
deriving DecidableEq, Repr

/-- Database state: the row lists plus primary-key sequences for the tables
the embedded handlers insert into. -/
structure DB where
  republicas : List Republica
  membros : List Membro
  quartos : List Quarto
  despesas : List Despesa
  pagamentos : List Pagamento
  nextMembroId : Nat
  nextDespesaId : Nat
  nextPagamentoId : Nat
deriving DecidableEq, Repr

/-- Error raised by a handler, one constructor per distinct `raise
HTTPException` site reachable in the embedded handlers, named after the
Portuguese detail message of the raise. -/
inductive ApiError where
  | republicaNaoEncontrada
  | permissoesNegadas
  | despesaNaoEncontrada
  | despesaJaPaga
  | membroNaoEncontrado
  | membroOutraRepublica
  | membroJaPagou
  | republicaSemMembros
  | membroJaExiste
  | quartoNaoEncontrado
  | quartoOutraRepublica
  | quartoOcupado
deriving DecidableEq, Repr

/-- HTTP status code the source attaches to each raise site. -/
def ApiError.httpStatus : ApiError → Nat
  | .republicaNaoEncontrada => 404
  | .permissoesNegadas => 401
  | .despesaNaoEncontrada => 404
  | .despesaJaPaga => 400
  | .membroNaoEncontrado => 404
  | .membroOutraRepublica => 400
  | .membroJaPagou => 409
  | .republicaSemMembros => 400
  | .membroJaExiste => 409
  | .quartoNaoEncontrado => 404
  | .quartoOutraRepublica => 400
  | .quartoOcupado => 409

/-- Abstract error taxonomy of spec section 7. -/
inductive ErrorKind where
  | notFound | conflict | invalidRelation | invalidState | unauthorized
deriving DecidableEq, Repr

/-- Classification of each raise site under the taxonomy of spec section 7:
missing entities are `notFound`, state and uniqueness violations (duplicate
payment, already-paid expense, occupied room, duplicate active contact) are
`conflict`, wrong-house relations are `invalidRelation`, and the
zero-member aggregate check is `invalidState`. -/
def ApiError.kind : ApiError → ErrorKind
  | .republicaNaoEncontrada => .notFound
  | .permissoesNegadas => .unauthorized
  | .despesaNaoEncontrada => .notFound
  | .despesaJaPaga => .conflict
  | .membroNaoEncontrado => .notFound
  | .membroOutraRepublica => .invalidRelation
  | .membroJaPagou => .conflict
  | .republicaSemMembros => .invalidState
  | .membroJaExiste => .conflict
  | .quartoNaoEncontrado => .notFound
  | .quartoOutraRepublica => .invalidRelation
  | .quartoOcupado => .conflict

/-- Number of members of a house counted by `registrar_pagamento`
(`select(func.count(Membro.id)).where(Membro.republica_id == republica_id)`,
`despesas/router.py` lines 303-307): every member row of the house, with no
filter on the `ativo` flag. -/
def numMembros (db : DB) (republica_id : Nat) : Nat :=
  db.membros.countP (fun m => m.republica_id == republica_id)

/-- Number of active members of a house (`ativo == True` filter), the count
the specification text says the split should use. -/
def numMembrosAtivos (db : DB) (republica_id : Nat) : Nat :=
  db.membros.countP (fun m => m.ativo && m.republica_id == republica_id)

/-- Embedding of `registrar_pagamento` (`despesas/router.py` lines 237-341).
The result is the final database state, the ordered list of states made
durable by each `session.commit()` call, and either the created payment row
or the raised error.  The source commits twice on the success path: once
right after `session.add(novo_pagamento)` and once after the conditional
status update. -/
def registrar_pagamento (db : DB) (user_id republica_id despesa_id membro_id now : Nat) :
    DB × List DB × Except ApiError Pagamento :=
  match db.republicas.find? (fun r => r.id == republica_id) with
  | none => (db, [], .error .republicaNaoEncontrada)
  | some db_republica =>
    if db_republica.user_id ≠ user_id then (db, [], .error .permissoesNegadas) else
    match db.despesas.find?
        (fun d => d.id == despesa_id && d.republica_id == republica_id) with
    | none => (db, [], .error .despesaNaoEncontrada)
    | some db_despesa =>
      if db_despesa.status = StatusDespesa.pago then (db, [], .error .despesaJaPaga) else
      match db.membros.find? (fun m => m.id == membro_id) with
      | none => (db, [], .error .membroNaoEncontrado)
      | some db_membro =>
        if db_membro.republica_id ≠ republica_id then
          (db, [], .error .membroOutraRepublica)
        else if (db.pagamentos.find?
            (fun p => p.membro_id == membro_id && p.despesa_id == despesa_id)).isSome then
          (db, [], .error .membroJaPagou)
        else
          let num_membros := numMembros db republica_id
          if num_membros = 0 then (db, [], .error .republicaSemMembros) else
          let valor_por_membro : ℚ := db_despesa.valor_total / num_membros
          let novo_pagamento : Pagamento :=
            { id := db.nextPagamentoId
              valor_pago := valor_por_membro
              data_pagamento := now
              membro_id := membro_id
              despesa_id := despesa_id }
          let db1 : DB :=
            { db with
              pagamentos := db.pagamentos ++ [novo_pagamento]
              nextPagamentoId := db.nextPagamentoId + 1 }
          let num_pagamentos := db1.pagamentos.countP (fun p => p.despesa_id == despesa_id)
          let db2 : DB :=
            if num_pagamentos ≥ num_membros then
              { db1 with
                despesas := db1.despesas.map
                  (fun d => if d.id == despesa_id then { d with status := .pago } else d) }
            else db1
          (db2, [db1, db2], .ok novo_pagamento)

/-- Request body of the member endpoints (`membros/schema.py`, class
`Member`): full name, contact email, contact phone, optional room. -/
structure MemberIn where
  fullname : String
  email : String
  telephone : String
  quarto_id : Option Nat
deriving DecidableEq, Repr

/-- Request body of the expense endpoints (`despesas/schema.py`,
`DespesaSchema`). -/
structure DespesaIn where
  descricao : String
  valor_total : ℚ
  data_vencimento : Nat
  categoria : TipoDespesa
deriving DecidableEq, Repr

/-- Embedding of `create_member` (`membros/router.py` lines 29-119): app-level
uniqueness of email and phone among the rows with `ativo == True`, the three
room checks when a room is requested, then insert of a row created with
`ativo = true` (migration server default) and `data_saida = none`. -/
def create_member (db : DB) (user_id republica_id : Nat) (member : MemberIn) :
    Except ApiError (DB × Membro) :=
  match db.republicas.find? (fun r => r.id == republica_id) with
  | none => .error .republicaNaoEncontrada
  | some db_republica =>
    if db_republica.user_id ≠ user_id then .error .permissoesNegadas else
    if (db.membros.find? (fun m => m.email == member.email && m.ativo)).isSome then
      .error .membroJaExiste
    else if (db.membros.find? (fun m => m.telephone == member.telephone && m.ativo)).isSome then
      .error .membroJaExiste
    else
      let insert : Except ApiError (DB × Membro) :=
        let new_member : Membro :=
          { id := db.nextMembroId
            fullname := member.fullname
            email := member.email
            telephone := member.telephone
            republica_id := republica_id
            quarto_id := member.quarto_id
            ativo := true
            data_saida := none }
        .ok ({ db with
                membros := db.membros ++ [new_member]
                nextMembroId := db.nextMembroId + 1 },
             new_member)
      match member.quarto_id with
      | none => insert
      | some qid =>
        match db.quartos.find? (fun q => q.id == qid) with
        | none => .error .quartoNaoEncontrado
        | some db_quarto =>
          if db_quarto.republica_id ≠ republica_id then .error .quartoOutraRepublica
          else if (db.membros.find? (fun m => m.quarto_id == some qid && m.ativo)).isSome then
            .error .quartoOcupado
          else insert

/-- Embedding of `update_member` (`membros/router.py` lines 206-309).  A
member located by house scope and id (any `ativo` state) has its four
writable fields replaced after the conditional email / phone / room checks;
when the member is not found the handler falls through to the final `raise`,
whose 404 detail names the república. -/
def update_member (db : DB) (user_id republica_id member_id : Nat) (member : MemberIn) :
    Except ApiError (DB × Membro) :=
  match db.republicas.find? (fun r => r.id == republica_id) with
  | none => .error .republicaNaoEncontrada
  | some db_republica =>
    if db_republica.user_id ≠ user_id then .error .permissoesNegadas else
    match db.membros.find?
        (fun m => m.republica_id == republica_id && m.id == member_id) with
    | none => .error .republicaNaoEncontrada
    | some db_member =>
      if member.email ≠ db_member.email ∧
          (db.membros.find?
            (fun m => m.email == member.email && m.ativo && m.id != member_id)).isSome then
        .error .membroJaExiste
      else if member.telephone ≠ db_member.telephone ∧
          (db.membros.find?
            (fun m => m.telephone == member.telephone && m.ativo && m.id != member_id)).isSome then
        .error .membroJaExiste
      else
        let write : Except ApiError (DB × Membro) :=
          let updated : Membro :=
            { db_member with
              fullname := member.fullname
              email := member.email
              telephone := member.telephone
              quarto_id := member.quarto_id }
          .ok ({ db with
                  membros := db.membros.map
                    (fun m => if m.id == member_id then
                      { m with
                        fullname := member.fullname
                        email := member.email
                        telephone := member.telephone
                        quarto_id := member.quarto_id }
                      else m) },
               updated)
        if member.quarto_id = db_member.quarto_id then write else
        match member.quarto_id with
        | none => write
        | some qid =>
          match db.quartos.find? (fun q => q.id == qid) with
          | none => .error .quartoNaoEncontrado
          | some db_quarto =>
            if db_quarto.republica_id ≠ republica_id then .error .quartoOutraRepublica
            else if (db.membros.find?
                (fun m => m.quarto_id == some qid && m.id != member_id && m.ativo)).isSome then
              .error .quartoOcupado
            else write

/-- Embedding of `delete_member` (`membros/router.py` lines 318-360): the
soft delete.  The member is located by house scope and id with no filter on
`ativo`; on success one commit stores the row with `ativo = false`,
`data_saida = now`, `quarto_id = None` and every other column unchanged.  A
missing member falls through to the final `raise`, a 404 whose detail names
the república. -/
def delete_member (db : DB) (user_id republica_id member_id now : Nat) :
    DB × List DB × Except ApiError String :=
  match db.republicas.find? (fun r => r.id == republica_id) with
  | none => (db, [], .error .republicaNaoEncontrada)
  | some db_republica =>
    if db_republica.user_id ≠ user_id then (db, [], .error .permissoesNegadas) else
    match db.membros.find?
        (fun m => m.republica_id == republica_id && m.id == member_id) with
    | none => (db, [], .error .republicaNaoEncontrada)
    | some _ =>
      let db1 : DB :=
        { db with
          membros := db.membros.map
            (fun m => if m.id == member_id then
              { m with ativo := false, data_saida := some now, quarto_id := none }
              else m) }
      (db1, [db1], .ok "Membro excluido")

/-- Embedding of `create_despesa` (`despesas/router.py` lines 42-74): after
the house and ownership checks a new expense row is inserted with the model
default `status = pendente`. -/
def create_despesa (db : DB) (user_id republica_id : Nat) (despesa : DespesaIn) :
    Except ApiError (DB × Despesa) :=
  match db.republicas.find? (fun r => r.id == republica_id) with
  | none => .error .republicaNaoEncontrada
  | some db_republica =>
    if db_republica.user_id ≠ user_id then .error .permissoesNegadas else
    let new_despesa : Despesa :=
      { id := db.nextDespesaId
        descricao := despesa.descricao
        valor_total := despesa.valor_total
        data_vencimento := despesa.data_vencimento
        categoria := despesa.categoria
        republica_id := republica_id
        status := .pendente }
    .ok ({ db with
            despesas := db.despesas ++ [new_despesa]
            nextDespesaId := db.nextDespesaId + 1 },
         new_despesa)

/-- Embedding of `update_despesa` (`despesas/router.py` lines 148-188): the
four writable fields are replaced; `status` is not among them. -/
def update_despesa (db : DB) (user_id republica_id despesa_id : Nat) (despesa : DespesaIn) :
    Except ApiError (DB × Despesa) :=
  match db.republicas.find? (fun r => r.id == republica_id) with
  | none => .error .republicaNaoEncontrada
  | some db_republica =>
    if db_republica.user_id ≠ user_id then .error .permissoesNegadas else
    match db.despesas.find?
        (fun d => d.id == despesa_id && d.republica_id == republica_id) with
    | none => .error .despesaNaoEncontrada
    | some db_despesa =>
      let updated : Despesa :=
        { db_despesa with
          descricao := despesa.descricao
          valor_total := despesa.valor_total
          data_vencimento := despesa.data_vencimento
          categoria := despesa.categoria }
      .ok ({ db with
              despesas := db.despesas.map
                (fun d => if d.id == despesa_id then
                  { d with
                    descricao := despesa.descricao
                    valor_total := despesa.valor_total
                    data_vencimento := despesa.data_vencimento
                    categoria := despesa.categoria }
                  else d) },
           updated)

/-- Embedding of `delete_despesa` (`despesas/router.py` lines 197-228):
removes the located expense row; the `cascade='all, delete-orphan'` on
`Despesa.pagamentos` removes its payment rows with it. -/
def delete_despesa (db : DB) (user_id republica_id despesa_id : Nat) :
    Except ApiError (DB × String) :=
  match db.republicas.find? (fun r => r.id == republica_id) with
  | none => .error .republicaNaoEncontrada
  | some db_republica =>
    if db_republica.user_id ≠ user_id then .error .permissoesNegadas else
    match db.despesas.find?
        (fun d => d.id == despesa_id && d.republica_id == republica_id) with
    | none => .error .despesaNaoEncontrada
    | some _ =>
      .ok ({ db with
              despesas := db.despesas.filter (fun d => !(d.id == despesa_id))
              pagamentos := db.pagamentos.filter (fun p => !(p.despesa_id == despesa_id)) },
           "Despesa excluída com sucesso")

/-- Embedding of `listar_pagamentos_despesa` (`despesas/router.py` lines
350-382): after the house, ownership and expense checks, every payment row
of the expense with no further filtering. -/
def listar_pagamentos_despesa (db : DB) (user_id republica_id despesa_id : Nat) :
    Except ApiError (List Pagamento) :=
  match db.republicas.find? (fun r => r.id == republica_id) with
  | none => .error .republicaNaoEncontrada
  | some db_republica =>
    if db_republica.user_id ≠ user_id then .error .permissoesNegadas else
    match db.despesas.find?
        (fun d => d.id == despesa_id && d.republica_id == republica_id) with
    | none => .error .despesaNaoEncontrada
    | some _ =>
      .ok (db.pagamentos.filter (fun p => p.despesa_id == despesa_id))

/-- One state-changing call of the embedded core, with its arguments. -/
inductive Op where
  | createMember (user_id republica_id : Nat) (m : MemberIn)
  | updateMember (user_id republica_id member_id : Nat) (m : MemberIn)
  | deleteMember (user_id republica_id member_id now : Nat)
  | createDespesa (user_id republica_id : Nat) (d : DespesaIn)
  | updateDespesa (user_id republica_id despesa_id : Nat) (d : DespesaIn)
  | deleteDespesa (user_id republica_id despesa_id : Nat)
  | registrarPagamento (user_id republica_id despesa_id membro_id now : Nat)
deriving DecidableEq, Repr

/-- Database state after one call: the handler's resulting state on success,
the unchanged state when the handler raised. -/
def applyOp (op : Op) (db : DB) : DB :=
  match op with
  | .createMember u r m =>
    match create_member db u r m with
    | .ok (db1, _) => db1
    | .error _ => db
  | .updateMember u r mid m =>
    match update_member db u r mid m with
    | .ok (db1, _) => db1
    | .error _ => db
  | .deleteMember u r mid now => (delete_member db u r mid now).1
  | .createDespesa u r d =>
    match create_despesa db u r d with
    | .ok (db1, _) => db1
    | .error _ => db
  | .updateDespesa u r did d =>
    match update_despesa db u r did d with
    | .ok (db1, _) => db1
    | .error _ => db
  | .deleteDespesa u r did =>
    match delete_despesa db u r did with
    | .ok (db1, _) => db1
    | .error _ => db
  | .registrarPagamento u r did mid now => (registrar_pagamento db u r did mid now).1

/-- First failing check of `registrar_pagamento` after the house and
ownership checks, read off the source in source order: expense located by id
and house, already-paid status, member existence, member house, duplicate
payment, and the member count of the house with no `ativo` filter. `none`
means every check passes. -/
def codeFirstError (db : DB) (republica_id despesa_id membro_id : Nat) : Option ApiError :=
  match db.despesas.find?
      (fun d => d.id == despesa_id && d.republica_id == republica_id) with
  | none => some .despesaNaoEncontrada
  | some db_despesa =>
    if db_despesa.status = StatusDespesa.pago then some .despesaJaPaga else
    match db.membros.find? (fun m => m.id == membro_id) with
    | none => some .membroNaoEncontrado
    | some db_membro =>
      if db_membro.republica_id ≠ republica_id then some .membroOutraRepublica
      else if (db.pagamentos.find?
          (fun p => p.membro_id == membro_id && p.despesa_id == despesa_id)).isSome then
        some .membroJaPagou
      else if numMembros db republica_id = 0 then some .republicaSemMembros
      else none

/-- Transcription of the check list of claim C2, word for word: identical to
`codeFirstError` except that check (6) reads "count of active members in the
house is greater than zero", hence the `ativo` filter in the final count.
This is the claim-side definition used to compare the claim against the
source. -/
def claimFirstError (db : DB) (republica_id despesa_id membro_id : Nat) : Option ApiError :=
  match db.despesas.find?
      (fun d => d.id == despesa_id && d.republica_id == republica_id) with
  | none => some .despesaNaoEncontrada
  | some db_despesa =>
    if db_despesa.status = StatusDespesa.pago then some .despesaJaPaga else
    match db.membros.find? (fun m => m.id == membro_id) with
    | none => some .membroNaoEncontrado
    | some db_membro =>
      if db_membro.republica_id ≠ republica_id then some .membroOutraRepublica
      else if (db.pagamentos.find?
          (fun p => p.membro_id == membro_id && p.despesa_id == despesa_id)).isSome then
        some .membroJaPagou
      else if numMembrosAtivos db republica_id = 0 then some .republicaSemMembros
      else none

/-! ### Concrete states used to test the claims -/

/-- House 1 owned by user 1 with one active member (id 1) and one
deactivated member (id 2), and a pending expense of total 100. -/
def dbMixed : DB :=
  { republicas := [{ id := 1, nome := "Casa", user_id := 1 }]
    membros :=
      [{ id := 1, fullname := "A", email := "a@x", telephone := "1",
         republica_id := 1, quarto_id := none, ativo := true, data_saida := none },
       { id := 2, fullname := "B", email := "b@x", telephone := "2",
         republica_id := 1, quarto_id := none, ativo := false, data_saida := some 7 }]
    quartos := []
    despesas :=
      [{ id := 1, descricao := "Luz", valor_total := 100, data_vencimento := 30,
         categoria := .luz, republica_id := 1, status := .pendente }]
    pagamentos := []
    nextMembroId := 3
    nextDespesaId := 2
    nextPagamentoId := 1 }

/-- House 1 owned by user 1 whose only member (id 1) is deactivated, with a
pending expense of total 150: the scenario of claim C5, after the
soft delete. -/
def dbInactiveOnly : DB :=
  { republicas := [{ id := 1, nome := "Casa", user_id := 1 }]
    membros :=
      [{ id := 1, fullname := "A", email := "a@x", telephone := "1",
         republica_id := 1, quarto_id := none, ativo := false, data_saida := some 5 }]
    quartos := []
    despesas :=
      [{ id := 1, descricao := "Agua", valor_total := 150, data_vencimento := 30,
         categoria := .agua, republica_id := 1, status := .pendente }]
    pagamentos := []
    nextMembroId := 2
    nextDespesaId := 2
    nextPagamentoId := 1 }

/-- House 1 owned by user 1 with a single active member (id 1) and a pending
expense of total 150: the payment of member 1 settles the expense. -/
def dbSolo : DB :=
  { republicas := [{ id := 1, nome := "Casa", user_id := 1 }]
    membros :=
      [{ id := 1, fullname := "A", email := "a@x", telephone := "1",
         republica_id := 1, quarto_id := none, ativo := true, data_saida := none }]
    quartos := []
    despesas :=
      [{ id := 1, descricao := "Gas", valor_total := 150, data_vencimento := 30,
         categoria := .gas, republica_id := 1, status := .pendente }]
    pagamentos := []
    nextMembroId := 2
    nextDespesaId := 2
    nextPagamentoId := 1 }

/-! ### General lemmas about the handlers -/

/-- A member row of the house makes the unfiltered member count of
`registrar_pagamento` positive. -/
theorem numMembros_pos_of_member (db : DB) (rid : Nat) (m : Membro)
    (hm : m ∈ db.membros) (hr : m.republica_id = rid) : 0 < numMembros db rid := by
  unfold numMembros
  exact List.countP_pos_iff.mpr ⟨m, hm, by simp [hr]⟩

/-- Payment row a successful `registrar_pagamento` call inserts when the
located expense row is `d0`. -/
def regPagoRow (db : DB) (rid did mid now : Nat) (d0 : Despesa) : Pagamento :=
  { id := db.nextPagamentoId
    valor_pago := d0.valor_total / numMembros db rid
    data_pagamento := now
    membro_id := mid
    despesa_id := did }

/-- State made durable by the first commit of a successful
`registrar_pagamento` call: the payment row is in, the expense status is
still untouched. -/
def regPagoInserted (db : DB) (rid did mid now : Nat) (d0 : Despesa) : DB :=
  { db with
    pagamentos := db.pagamentos ++ [regPagoRow db rid did mid now d0]
    nextPagamentoId := db.nextPagamentoId + 1 }

/-- State made durable by the second commit of a successful
`registrar_pagamento` call: the status flips to `pago` exactly when the new
payment count of the expense reaches the unfiltered member count. -/
def regPagoFinal (db : DB) (rid did mid now : Nat) (d0 : Despesa) : DB :=
  let db1 := regPagoInserted db rid did mid now d0
  if db.pagamentos.countP (fun p => p.despesa_id == did) + 1 ≥ numMembros db rid then
    { db1 with
      despesas := db1.despesas.map
        (fun d => if d.id == did then { d with status := .pago } else d) }
  else db1

/-- Characterization of the success path of `registrar_pagamento`: when the
six checks pass, the handler inserts one payment row holding the expense
total divided by the unfiltered member count, commits, recounts, updates the
status when the new payment count reaches the member count, and commits
again. -/
theorem registrar_pagamento_ok_spec
    (db : DB) (uid rid did mid now : Nat)
    (rep : Republica) (d0 : Despesa) (m0 : Membro)
    (hrep : db.republicas.find? (fun r => r.id == rid) = some rep)
    (huid : rep.user_id = uid)
    (hdes : db.despesas.find? (fun d => d.id == did && d.republica_id == rid) = some d0)
    (hst : d0.status ≠ .pago)
    (hmem : db.membros.find? (fun m => m.id == mid) = some m0)
    (hmrid : m0.republica_id = rid)
    (hdup : db.pagamentos.find? (fun p => p.membro_id == mid && p.despesa_id == did) = none) :
    registrar_pagamento db uid rid did mid now =
      (regPagoFinal db rid did mid now d0,
       [regPagoInserted db rid did mid now d0, regPagoFinal db rid did mid now d0],
       .ok (regPagoRow db rid did mid now d0)) := by
  have hpos : 0 < numMembros db rid :=
    numMembros_pos_of_member db rid m0 (List.mem_of_find?_eq_some hmem) hmrid
  have hcount :
      (db.pagamentos ++ [regPagoRow db rid did mid now d0]).countP
        (fun p => p.despesa_id == did)
        = db.pagamentos.countP (fun p => p.despesa_id == did) + 1 := by
    simp [List.countP_append, regPagoRow]
  unfold registrar_pagamento
  rw [hrep, hdes, hmem, hdup]
  simp only [huid, hmrid, hst, if_neg, ite_not, Option.isSome_none, Bool.false_eq_true,
    if_false, ne_eq, not_true_eq_false, if_true]
  simp only [if_neg hst, Nat.pos_iff_ne_zero.mp hpos, if_false]
  simp [regPagoFinal, regPagoInserted, regPagoRow, hcount, Nat.pos_iff_ne_zero.mp hpos]

/-- C10: in `registrar_pagamento`, whenever the member-belongs-to-the-house
check succeeds the member count computed immediately afterwards is at least
1 (the paying member is one of the counted rows), so the "República não tem
membros cadastrados" branch is unreachable and the per-member division never
divides by zero. -/
theorem registrar_pagamento_sem_membros_unreachable :
    (∀ (db : DB) (rid mid : Nat) (m : Membro),
        db.membros.find? (fun x => x.id == mid) = some m →
        m.republica_id = rid → 0 < numMembros db rid) ∧
    (∀ (db : DB) (uid rid did mid now : Nat),
        (registrar_pagamento db uid rid did mid now).2.2 ≠
          Except.error ApiError.republicaSemMembros) := by
  constructor
  · intro db rid mid m hfind hrid
    exact numMembros_pos_of_member db rid m (List.mem_of_find?_eq_some hfind) hrid
  · intro db uid rid did mid now h
    unfold registrar_pagamento at h
    repeat' (split at h)
    all_goals try simp_all
    rename_i m0 hu hdes hst hmem hrid hdup
    by_cases hz : numMembros db rid = 0
    · have := numMembros_pos_of_member db rid m0 (List.mem_of_find?_eq_some hmem) hrid
      omega
    · rw [if_neg hz] at h
      simp at h

/-- Closed instance of `registrar_pagamento_sem_membros_unreachable`: the
positive-count part at the concrete member of `dbSolo`. -/
theorem registrar_pagamento_sem_membros_unreachable_witness :
    0 < numMembros dbSolo 1 ∧
      (registrar_pagamento dbSolo 1 1 1 1 0).2.2 ≠
        Except.error ApiError.republicaSemMembros :=
  ⟨registrar_pagamento_sem_membros_unreachable.1 dbSolo 1 1
      { id := 1, fullname := "A", email := "a@x", telephone := "1",
        republica_id := 1, quarto_id := none, ativo := true, data_saida := none }
      (by decide) (by decide),
   registrar_pagamento_sem_membros_unreachable.2 dbSolo 1 1 1 1 0⟩

/-- Under the house and ownership hypotheses, `registrar_pagamento` reports
exactly the first failing check of `codeFirstError`, and succeeds exactly
when no check fails. -/
theorem registrar_pagamento_error_iff
    (db : DB) (uid rid did mid now : Nat) (rep : Republica)
    (hrep : db.republicas.find? (fun r => r.id == rid) = some rep)
    (huid : rep.user_id = uid) :
    (∀ e : ApiError,
      (registrar_pagamento db uid rid did mid now).2.2 = .error e ↔
        codeFirstError db rid did mid = some e) ∧
    (((registrar_pagamento db uid rid did mid now).2.2).isOk = true ↔
      codeFirstError db rid did mid = none) := by
  cases hdes : db.despesas.find? (fun d => d.id == did && d.republica_id == rid) with
  | none => simp [registrar_pagamento, codeFirstError, Except.isOk, Except.toBool, hrep, huid, hdes]
  | some d0 =>
    by_cases hst : d0.status = StatusDespesa.pago
    · simp [registrar_pagamento, codeFirstError, Except.isOk, Except.toBool, hrep, huid, hdes, hst]
    · cases hmem : db.membros.find? (fun m => m.id == mid) with
      | none => simp [registrar_pagamento, codeFirstError, Except.isOk, Except.toBool, hrep, huid, hdes, hst, hmem]
      | some m0 =>
        by_cases hmr : m0.republica_id = rid
        · by_cases hdup :
              (db.pagamentos.find?
                (fun p => p.membro_id == mid && p.despesa_id == did)).isSome = true
          · simp [registrar_pagamento, codeFirstError, Except.isOk, Except.toBool, hrep, huid, hdes, hst, hmem,
              hmr, hdup]
          · have hz : ¬ numMembros db rid = 0 := by
              have := numMembros_pos_of_member db rid m0
                (List.mem_of_find?_eq_some hmem) hmr
              omega
            simp [registrar_pagamento, codeFirstError, Except.isOk, Except.toBool, hrep, huid, hdes, hst, hmem,
              hmr, hdup, hz]
        · simp [registrar_pagamento, codeFirstError, Except.isOk, Except.toBool, hrep, huid, hdes, hst, hmem, hmr]

/-- C2 counterexample: in `dbInactiveOnly` the house's only member is
deactivated, so by the claim's own check list the first failing
precondition is check (6), "count of active members greater than zero", and
the call should report the InvalidState error; the code instead registers
the payment successfully, because its sixth check counts every member row
of the house with no `ativo` filter. -/
theorem registrar_pagamento_claim_order_refuted :
    claimFirstError dbInactiveOnly 1 1 1 = some ApiError.republicaSemMembros ∧
    ApiError.republicaSemMembros.kind = ErrorKind.invalidState ∧
    ((registrar_pagamento dbInactiveOnly 1 1 1 1 0).2.2).isOk = true := by decide

/-- C2 (amended): with the house resolved and the caller authorized,
`registrar_pagamento` checks its preconditions in exactly the order (1)
expense exists and belongs to the house, (2) expense not already paid, (3)
member exists, (4) member belongs to the house, (5) no prior payment by the
pair, (6) the count of the house's member rows — active or not — is
positive; the error reported is always the first violated check in this
order, and the call succeeds exactly when none fails. -/
theorem registrar_pagamento_precondition_order
    (db : DB) (uid rid did mid now : Nat) (rep : Republica)
    (hrep : db.republicas.find? (fun r => r.id == rid) = some rep)
    (huid : rep.user_id = uid) :
    (∀ e : ApiError,
      (registrar_pagamento db uid rid did mid now).2.2 = .error e ↔
        codeFirstError db rid did mid = some e) ∧
    (((registrar_pagamento db uid rid did mid now).2.2).isOk = true ↔
      codeFirstError db rid did mid = none) :=
  registrar_pagamento_error_iff db uid rid did mid now rep hrep huid

/-- Closed instance of `registrar_pagamento_precondition_order`: a request
naming a missing expense and a missing member reports the expense first. -/
theorem registrar_pagamento_precondition_order_witness :
    (registrar_pagamento dbSolo 1 1 99 99 0).2.2 =
      Except.error ApiError.despesaNaoEncontrada :=
  ((registrar_pagamento_precondition_order dbSolo 1 1 99 99 0
      { id := 1, nome := "Casa", user_id := 1 } (by decide) (by decide)).1
    ApiError.despesaNaoEncontrada).mpr (by decide)

/-- C1 counterexample: in `dbMixed` the house has one active and one
deactivated member and a pending expense of total 100; the claim predicts a
recorded amount of `100 / 1` (division by the active member count), but the
handler records `50`, dividing by the two member rows of the house. -/
theorem registrar_pagamento_share_active_refuted :
    numMembrosAtivos dbMixed 1 = 1 ∧
    ((registrar_pagamento dbMixed 1 1 1 1 0).2.2).toOption.map Pagamento.valor_pago
      = some 50 ∧
    ((registrar_pagamento dbMixed 1 1 1 1 0).2.2).toOption.map Pagamento.valor_pago
      ≠ some ((100 : ℚ) / numMembrosAtivos dbMixed 1) := by
  have h1 : numMembrosAtivos dbMixed 1 = 1 := by decide
  have h2 : ((registrar_pagamento dbMixed 1 1 1 1 0).2.2).toOption.map
      Pagamento.valor_pago = some 50 := by
    simp +decide [registrar_pagamento, dbMixed, numMembros, Except.toOption, Option.map]
    norm_num
  refine ⟨h1, h2, ?_⟩
  rw [h2, h1]
  intro h
  rw [Option.some.injEq] at h
  norm_num at h

/-- C4 counterexample: in `dbMixed` the active member pays; afterwards the
expense has one payment, at least the active member count of 1, yet its
status stays `pendente` because the handler compares the recount against
the two member rows of the house, not against the active count. -/
theorem registrar_pagamento_settle_active_refuted :
    numMembrosAtivos dbMixed 1 = 1 ∧
    ((registrar_pagamento dbMixed 1 1 1 1 0).1.pagamentos.countP
        (fun p => p.despesa_id == 1)) = 1 ∧
    ((registrar_pagamento dbMixed 1 1 1 1 0).1.despesas.map Despesa.status)
      = [StatusDespesa.pendente] := by decide

/-- C5 counterexample: in `dbInactiveOnly` the house's only member is
deactivated before paying (the scenario of the claim), yet the Register
Payment call succeeds instead of failing with NotFound: the member lookup
of the handler has no `ativo` filter. -/
theorem registrar_pagamento_inactive_member_refuted :
    (dbInactiveOnly.membros.map Membro.ativo) = [false] ∧
    ((registrar_pagamento dbInactiveOnly 1 1 1 1 0).2.2).isOk = true := by decide

/-- C5 (amended): a deactivated member that exists and belongs to the house
passes every check of `registrar_pagamento` like an active one — the
handler never reads the `ativo` flag — so the payment is registered. -/
theorem registrar_pagamento_accepts_inactive_member
    (db : DB) (uid rid did mid now : Nat)
    (rep : Republica) (d0 : Despesa) (m0 : Membro)
    (hrep : db.republicas.find? (fun r => r.id == rid) = some rep)
    (huid : rep.user_id = uid)
    (hdes : db.despesas.find? (fun d => d.id == did && d.republica_id == rid) = some d0)
    (hst : d0.status ≠ .pago)
    (hmem : db.membros.find? (fun m => m.id == mid) = some m0)
    (hinactive : m0.ativo = false)
    (hmrid : m0.republica_id = rid)
    (hdup : db.pagamentos.find? (fun p => p.membro_id == mid && p.despesa_id == did) = none) :
    (registrar_pagamento db uid rid did mid now).2.2 =
      Except.ok (regPagoRow db rid did mid now d0) := by
  rw [registrar_pagamento_ok_spec db uid rid did mid now rep d0 m0 hrep huid hdes hst
    hmem hmrid hdup]

/-- Closed instance of `registrar_pagamento_accepts_inactive_member` at the
state of the C5 scenario. -/
theorem registrar_pagamento_accepts_inactive_member_witness :
    (registrar_pagamento dbInactiveOnly 1 1 1 1 0).2.2 =
      Except.ok (regPagoRow dbInactiveOnly 1 1 1 0
        { id := 1, descricao := "Agua", valor_total := 150, data_vencimento := 30,
          categoria := .agua, republica_id := 1, status := .pendente }) :=
  registrar_pagamento_accepts_inactive_member dbInactiveOnly 1 1 1 1 0
    { id := 1, nome := "Casa", user_id := 1 }
    { id := 1, descricao := "Agua", valor_total := 150, data_vencimento := 30,
      categoria := .agua, republica_id := 1, status := .pendente }
    { id := 1, fullname := "A", email := "a@x", telephone := "1",
      republica_id := 1, quarto_id := none, ativo := false, data_saida := some 5 }
    rfl rfl rfl (by decide) rfl rfl rfl rfl

/-- C4 (amended): after a successful insert, `registrar_pagamento` recounts
the payments of the expense (one more than before) and sets the status to
`pago` exactly when that recount is greater than or equal to the count of
all member rows of the house — `≥`, not `==`, and with no `ativo` filter on
the divisor count; when the recount is below the member count the expense
rows are left unchanged. -/
theorem registrar_pagamento_settlement_threshold
    (db : DB) (uid rid did mid now : Nat)
    (rep : Republica) (d0 : Despesa) (m0 : Membro)
    (hrep : db.republicas.find? (fun r => r.id == rid) = some rep)
    (huid : rep.user_id = uid)
    (hdes : db.despesas.find? (fun d => d.id == did && d.republica_id == rid) = some d0)
    (hst : d0.status ≠ .pago)
    (hmem : db.membros.find? (fun m => m.id == mid) = some m0)
    (hmrid : m0.republica_id = rid)
    (hdup : db.pagamentos.find? (fun p => p.membro_id == mid && p.despesa_id == did) = none) :
    ((registrar_pagamento db uid rid did mid now).1.pagamentos.countP
        (fun p => p.despesa_id == did)
      = db.pagamentos.countP (fun p => p.despesa_id == did) + 1) ∧
    (db.pagamentos.countP (fun p => p.despesa_id == did) + 1 ≥ numMembros db rid →
      ∀ d ∈ (registrar_pagamento db uid rid did mid now).1.despesas,
        d.id = did → d.status = .pago) ∧
    (db.pagamentos.countP (fun p => p.despesa_id == did) + 1 < numMembros db rid →
      (registrar_pagamento db uid rid did mid now).1.despesas = db.despesas) := by
  rw [registrar_pagamento_ok_spec db uid rid did mid now rep d0 m0 hrep huid hdes hst
    hmem hmrid hdup]
  refine ⟨?_, ?_, ?_⟩
  · by_cases hge : db.pagamentos.countP (fun p => p.despesa_id == did) + 1 ≥ numMembros db rid
    · simp [regPagoFinal, regPagoInserted, regPagoRow, if_pos hge, List.countP_append]
    · simp [regPagoFinal, regPagoInserted, regPagoRow, if_neg hge, List.countP_append]
  · intro hge d hd hid
    rw [regPagoFinal, if_pos hge] at hd
    simp only [regPagoInserted, List.mem_map] at hd
    obtain ⟨d1, _, rfl⟩ := hd
    by_cases h1 : d1.id = did
    · simp [h1]
    · simp only [beq_iff_eq, h1, if_false] at hid ⊢
  · intro hlt
    rw [regPagoFinal, if_neg (by omega)]
    simp [regPagoInserted]

/-- Closed instance of `registrar_pagamento_settlement_threshold` at
`dbSolo`: the single payment settles the expense of the one-member house. -/
theorem registrar_pagamento_settlement_threshold_witness :
    (registrar_pagamento dbSolo 1 1 1 1 0).1.pagamentos.countP
        (fun p => p.despesa_id == 1) = 1 ∧
    (∀ d ∈ (registrar_pagamento dbSolo 1 1 1 1 0).1.despesas,
      d.id = 1 → d.status = .pago) := by
  have h := registrar_pagamento_settlement_threshold dbSolo 1 1 1 1 0
    { id := 1, nome := "Casa", user_id := 1 }
    { id := 1, descricao := "Gas", valor_total := 150, data_vencimento := 30,
      categoria := .gas, republica_id := 1, status := .pendente }
    { id := 1, fullname := "A", email := "a@x", telephone := "1",
      republica_id := 1, quarto_id := none, ativo := true, data_saida := none }
    rfl rfl rfl (by decide) rfl rfl rfl
  refine ⟨?_, h.2.1 (by decide)⟩
  rw [h.1]
  decide

/-! ### The full-settlement scenario: every member pays once -/

/-- Payment rows created when the listed members pay in order, primary keys
counting up from `startId`, each row for the amount `valor`. -/
def mkRows (startId : Nat) (valor : ℚ) (now did : Nat) : List Nat → List Pagamento
  | [] => []
  | i :: rest =>
    { id := startId, valor_pago := valor, data_pagamento := now,
      membro_id := i, despesa_id := did } :: mkRows (startId + 1) valor now did rest

/-- Sequential `registrar_pagamento` calls by the listed members; `none`
when some call raises. -/
def payAll (uid rid did now : Nat) : DB → List Nat → Option DB
  | db, [] => some db
  | db, i :: rest =>
    match registrar_pagamento db uid rid did i now with
    | (db1, _, .ok _) => payAll uid rid did now db1 rest
    | (_, _, .error _) => none

/-- State after the listed members have paid but before settlement: the new
payment rows are appended, nothing else moves. -/
def midState (db0 : DB) (valor : ℚ) (now did : Nat) (done : List Nat) : DB :=
  { db0 with
    pagamentos := db0.pagamentos ++ mkRows db0.nextPagamentoId valor now did done
    nextPagamentoId := db0.nextPagamentoId + done.length }

/-- State after every member has paid: the payment rows of all of them plus
the status flip of the expense. -/
def settledState (db0 : DB) (valor : ℚ) (now did : Nat) (ids : List Nat) : DB :=
  { midState db0 valor now did ids with
    despesas := db0.despesas.map
      (fun d => if d.id == did then { d with status := .pago } else d) }

theorem mkRows_length (s : Nat) (v : ℚ) (now did : Nat) (l : List Nat) :
    (mkRows s v now did l).length = l.length := by
  induction l generalizing s with
  | nil => rfl
  | cons i rest ih => simp [mkRows, ih]

theorem mkRows_despesa (s : Nat) (v : ℚ) (now did : Nat) (l : List Nat) :
    ∀ p ∈ mkRows s v now did l, p.despesa_id = did := by
  induction l generalizing s with
  | nil => simp [mkRows]
  | cons i rest ih =>
    intro p hp
    rcases List.mem_cons.mp hp with h | h
    · rw [h]
    · exact ih (s + 1) p h

theorem mkRows_membro (s : Nat) (v : ℚ) (now did : Nat) (l : List Nat) :
    ∀ p ∈ mkRows s v now did l, p.membro_id ∈ l := by
  induction l generalizing s with
  | nil => simp [mkRows]
  | cons i rest ih =>
    intro p hp
    rcases List.mem_cons.mp hp with h | h
    · rw [h]; exact List.mem_cons_self i rest
    · exact List.mem_cons_of_mem i (ih (s + 1) p h)

theorem mkRows_countP_did (s : Nat) (v : ℚ) (now did : Nat) (l : List Nat) :
    (mkRows s v now did l).countP (fun p => p.despesa_id == did) = l.length := by
  induction l generalizing s with
  | nil => rfl
  | cons i rest ih => simp [mkRows, List.countP_cons, ih]

theorem mkRows_snoc (s : Nat) (v : ℚ) (now did : Nat) (l : List Nat) (i : Nat) :
    mkRows s v now did (l ++ [i]) =
      mkRows s v now did l ++
        [{ id := s + l.length, valor_pago := v, data_pagamento := now,
           membro_id := i, despesa_id := did }] := by
  induction l generalizing s with
  | nil => simp [mkRows]
  | cons j rest ih =>
    have harith : s + 1 + rest.length = s + (rest.length + 1) := by omega
    simp only [List.cons_append, mkRows, List.length_cons]
    rw [show rest.append [i] = rest ++ [i] from rfl, ih (s + 1), harith]

theorem mkRows_filter_did (s : Nat) (v : ℚ) (now did : Nat) (l : List Nat) :
    (mkRows s v now did l).filter (fun p => p.despesa_id == did) =
      mkRows s v now did l := by
  rw [List.filter_eq_self]
  intro p hp
  simp [mkRows_despesa s v now did l p hp]

theorem mkRows_map_valor (s : Nat) (v : ℚ) (now did : Nat) (l : List Nat) :
    (mkRows s v now did l).map Pagamento.valor_pago = List.replicate l.length v := by
  induction l generalizing s with
  | nil => rfl
  | cons i rest ih => simp [mkRows, ih, List.replicate_succ]

theorem midState_nil (db0 : DB) (v : ℚ) (now did : Nat) :
    midState db0 v now did [] = db0 := by
  simp [midState, mkRows]

/-- Induction core of the full-settlement scenario: with the house and a
pending expense fixed, and the remaining payers distinct members of the
house, the sequence of `registrar_pagamento` calls runs to completion and
produces exactly the settled state. -/
theorem payAll_settles_go
    (db0 : DB) (uid rid did now : Nat) (rep : Republica) (d0 : Despesa)
    (hrep : db0.republicas.find? (fun r => r.id == rid) = some rep)
    (huid : rep.user_id = uid)
    (hdes : db0.despesas.find? (fun d => d.id == did && d.republica_id == rid) = some d0)
    (hst : d0.status = .pendente)
    (hnopay : db0.pagamentos.countP (fun p => p.despesa_id == did) = 0) :
    ∀ rem done : List Nat,
      (done ++ rem).Nodup →
      (∀ i ∈ rem, ∃ m, db0.membros.find? (fun x => x.id == i) = some m ∧
        m.republica_id = rid) →
      done.length + rem.length = numMembros db0 rid →
      rem ≠ [] →
      payAll uid rid did now
          (midState db0 (d0.valor_total / numMembros db0 rid) now did done) rem
        = some (settledState db0 (d0.valor_total / numMembros db0 rid) now did
            (done ++ rem)) := by
  intro rem
  induction rem with
  | nil => intro done _ _ _ hne; exact absurd rfl hne
  | cons i rest ih =>
    intro done hnd hmems hlen _
    obtain ⟨m, hm, hmr⟩ := hmems i (List.mem_cons_self i rest)
    have hstep := registrar_pagamento_ok_spec
      (midState db0 (d0.valor_total / numMembros db0 rid) now did done)
      uid rid did i now rep d0 m hrep huid hdes (by simp [hst]) hm hmr ?hdup
    case hdup =>
      rw [List.find?_eq_none]
      intro p hp
      rcases List.mem_append.mp hp with hp0 | hpr
      · have := (List.countP_eq_zero.mp hnopay) p hp0
        simp only [beq_iff_eq] at this
        simp [this]
      · have hpm := mkRows_membro _ _ _ _ _ p hpr
        have hdisj := List.disjoint_of_nodup_append hnd
        have : p.membro_id ≠ i := by
          intro hcontra
          exact (hdisj (hcontra ▸ hpm)) (List.mem_cons_self i rest)
        simp [this]
    have hcount : (midState db0 (d0.valor_total / numMembros db0 rid) now did
        done).pagamentos.countP (fun p => p.despesa_id == did) = done.length := by
      simp [midState, List.countP_append, hnopay, mkRows_countP_did]
    have hN : numMembros (midState db0 (d0.valor_total / numMembros db0 rid) now did done)
        rid = numMembros db0 rid := rfl
    rw [payAll, hstep]
    by_cases hrest : rest = []
    · subst hrest
      have hfull : done.length + 1 = numMembros db0 rid := by
        simpa using hlen
      have hfinal : regPagoFinal
          (midState db0 (d0.valor_total / numMembros db0 rid) now did done)
          rid did i now d0
          = settledState db0 (d0.valor_total / numMembros db0 rid) now did
              (done ++ [i]) := by
        rw [regPagoFinal, if_pos (by rw [hcount, hN]; omega)]
        simp [regPagoInserted, regPagoRow, midState, settledState, numMembros,
          DB.mk.injEq, mkRows_snoc, Nat.add_assoc]
      simp [payAll, hfinal]
    · have hlt : ¬ (midState db0 (d0.valor_total / numMembros db0 rid) now did
          done).pagamentos.countP (fun p => p.despesa_id == did) + 1
            ≥ numMembros (midState db0 (d0.valor_total / numMembros db0 rid) now did
              done) rid := by
        rw [hcount, hN]
        have : rest.length ≠ 0 := fun h => hrest (List.length_eq_zero.mp h)
        simp only [List.length_cons] at hlen
        omega
      have hmid : regPagoFinal
          (midState db0 (d0.valor_total / numMembros db0 rid) now did done)
          rid did i now d0
          = midState db0 (d0.valor_total / numMembros db0 rid) now did (done ++ [i]) := by
        rw [regPagoFinal, if_neg hlt]
        simp [regPagoInserted, regPagoRow, midState, numMembros,
          DB.mk.injEq, mkRows_snoc, Nat.add_assoc]
      rw [hmid]
      have hres := ih (done ++ [i])
        (by simpa [List.append_assoc] using hnd)
        (fun j hj => hmems j (List.mem_cons_of_mem i hj))
        (by simp at hlen ⊢; omega)
        hrest
      simp only [List.append_assoc, List.singleton_append] at hres
      exact hres

/-- C1 (amended): every recorded payment equals the computed share — the
expense total divided by the number of member rows of the house, active or
not, at that moment (binary64 floating-point division in the source, with
no rounding adjustment; idealized here as exact rational division);
consequently, when the house has N member rows and each of the N members
registers one payment against a pending expense of total T with no prior
payments, every call succeeds, the recorded amounts are N copies of the one
computed share `T / N`, the expense ends paid, and the recorded amounts sum
to T within floating-point tolerance: whenever the stored share deviates
from the ideal `T / N` by at most δ — as binary64 rounding guarantees for a
machine-level δ — the N recorded amounts sum to within `N * δ` of T. -/
theorem registrar_pagamento_equal_split
    (db0 : DB) (uid rid did now : Nat) (rep : Republica) (d0 : Despesa) (ids : List Nat)
    (hrep : db0.republicas.find? (fun r => r.id == rid) = some rep)
    (huid : rep.user_id = uid)
    (hdes : db0.despesas.find? (fun d => d.id == did && d.republica_id == rid) = some d0)
    (hst : d0.status = .pendente)
    (hnopay : db0.pagamentos.countP (fun p => p.despesa_id == did) = 0)
    (hnodup : ids.Nodup)
    (hmems : ∀ i ∈ ids, ∃ m, db0.membros.find? (fun x => x.id == i) = some m ∧
      m.republica_id = rid)
    (hlen : ids.length = numMembros db0 rid)
    (hne : ids ≠ []) :
    payAll uid rid did now db0 ids
      = some (settledState db0 (d0.valor_total / numMembros db0 rid) now did ids) ∧
    ((settledState db0 (d0.valor_total / numMembros db0 rid) now did ids).pagamentos.filter
        (fun p => p.despesa_id == did)).map Pagamento.valor_pago
      = List.replicate (numMembros db0 rid) (d0.valor_total / numMembros db0 rid) ∧
    (∀ v δ : ℚ, |v - d0.valor_total / numMembros db0 rid| ≤ δ →
      |(List.replicate (numMembros db0 rid) v).sum - d0.valor_total|
        ≤ (numMembros db0 rid : ℚ) * δ) ∧
    ∀ d ∈ (settledState db0 (d0.valor_total / numMembros db0 rid) now did ids).despesas,
      d.id = did → d.status = .pago := by
  have hNne : (numMembros db0 rid : ℚ) ≠ 0 := by
    have : ids.length ≠ 0 := fun h => hne (List.length_eq_zero.mp h)
    rw [hlen] at this
    exact_mod_cast this
  have hfilter :
      (settledState db0 (d0.valor_total / numMembros db0 rid) now did ids).pagamentos.filter
        (fun p => p.despesa_id == did)
      = mkRows db0.nextPagamentoId (d0.valor_total / numMembros db0 rid) now did ids := by
    have h0 : db0.pagamentos.filter (fun p => p.despesa_id == did) = [] := by
      rw [List.filter_eq_nil_iff]
      intro p hp
      have := (List.countP_eq_zero.mp hnopay) p hp
      simpa using this
    simp [settledState, midState, List.filter_append, h0, mkRows_filter_did]
  have hmap :
      ((settledState db0 (d0.valor_total / numMembros db0 rid) now did ids).pagamentos.filter
        (fun p => p.despesa_id == did)).map Pagamento.valor_pago
      = List.replicate (numMembros db0 rid) (d0.valor_total / numMembros db0 rid) := by
    rw [hfilter, mkRows_map_valor, hlen]
  refine ⟨?_, hmap, ?_, ?_⟩
  · have := payAll_settles_go db0 uid rid did now rep d0 hrep huid hdes hst hnopay
      ids [] (by simpa using hnodup) hmems (by simpa using hlen) hne
    rw [midState_nil] at this
    simpa using this
  · intro v δ hv
    rw [List.sum_replicate, nsmul_eq_mul]
    have hT : (numMembros db0 rid : ℚ) * (d0.valor_total / numMembros db0 rid)
        = d0.valor_total := mul_div_cancel₀ _ hNne
    calc |(numMembros db0 rid : ℚ) * v - d0.valor_total|
        = |(numMembros db0 rid : ℚ)| * |v - d0.valor_total / numMembros db0 rid| := by
          rw [← abs_mul, mul_sub, hT]
      _ = (numMembros db0 rid : ℚ) * |v - d0.valor_total / numMembros db0 rid| := by
          rw [abs_of_nonneg (by positivity)]
      _ ≤ (numMembros db0 rid : ℚ) * δ :=
          mul_le_mul_of_nonneg_left hv (by positivity)
  · intro d hd hid
    simp only [settledState, List.mem_map] at hd
    obtain ⟨d1, _, rfl⟩ := hd
    by_cases h1 : d1.id = did
    · simp [h1]
    · simp only [beq_iff_eq, h1, if_false] at hid ⊢

/-- House 1 owned by user 1 with two active members (ids 1 and 2) and a
pending expense of total 200: the two-payer scenario of spec section 8. -/
def dbPair : DB :=
  { republicas := [{ id := 1, nome := "Casa", user_id := 1 }]
    membros :=
      [{ id := 1, fullname := "A", email := "a@x", telephone := "1",
         republica_id := 1, quarto_id := none, ativo := true, data_saida := none },
       { id := 2, fullname := "B", email := "b@x", telephone := "2",
         republica_id := 1, quarto_id := none, ativo := true, data_saida := none }]
    quartos := []
    despesas :=
      [{ id := 1, descricao := "Luz", valor_total := 200, data_vencimento := 30,
         categoria := .luz, republica_id := 1, status := .pendente }]
    pagamentos := []
    nextMembroId := 3
    nextDespesaId := 2
    nextPagamentoId := 1 }

/-- Closed instance of `registrar_pagamento_equal_split`: both members of
`dbPair` pay the 200 expense; the run settles, the recorded amounts are two
copies of the computed share, and any stored share within 1/100 of the
ideal 100 makes the two recorded amounts sum to within 2 * (1/100) of
200. -/
theorem registrar_pagamento_equal_split_witness :
    payAll 1 1 1 0 dbPair [1, 2]
      = some (settledState dbPair ((200 : ℚ) / numMembros dbPair 1) 0 1 [1, 2]) ∧
    ((settledState dbPair ((200 : ℚ) / numMembros dbPair 1) 0 1
          [1, 2]).pagamentos.filter
        (fun p => p.despesa_id == 1)).map Pagamento.valor_pago
      = List.replicate (numMembros dbPair 1) ((200 : ℚ) / numMembros dbPair 1) ∧
    |(List.replicate (numMembros dbPair 1) ((100 : ℚ))).sum - (200 : ℚ)|
      ≤ (numMembros dbPair 1 : ℚ) * (1 / 100) := by
  have h := registrar_pagamento_equal_split dbPair 1 1 1 0
      { id := 1, nome := "Casa", user_id := 1 }
      { id := 1, descricao := "Luz", valor_total := 200, data_vencimento := 30,
        categoria := .luz, republica_id := 1, status := .pendente }
      [1, 2] rfl rfl rfl rfl (by decide) (by decide)
      (by
        intro i hi
        rcases List.mem_cons.mp hi with h1 | h1
        · subst h1
          exact ⟨{ id := 1, fullname := "A", email := "a@x", telephone := "1",
                   republica_id := 1, quarto_id := none, ativo := true,
                   data_saida := none }, rfl, rfl⟩
        · have h2 : i = 2 := by simpa using h1
          subst h2
          exact ⟨{ id := 2, fullname := "B", email := "b@x", telephone := "2",
                   republica_id := 1, quarto_id := none, ativo := true,
                   data_saida := none }, rfl, rfl⟩)
      (by decide) (by decide)
  refine ⟨h.1, h.2.1, h.2.2.1 100 (1 / 100) ?_⟩
  rw [show numMembros dbPair 1 = 2 from by decide]
  norm_num

/-- C3 counterexample: in `dbSolo` the single member's payment settles the
expense; the call commits twice, and the first committed state already
holds the payment row for (member 1, expense 1) while the expense status is
still `pendente` — an observable intermediate state with the payment
inserted but the status not yet updated, contradicting the one-transaction
claim. -/
theorem registrar_pagamento_atomicity_refuted :
    (registrar_pagamento dbSolo 1 1 1 1 0).2.1.length = 2 ∧
    ((registrar_pagamento dbSolo 1 1 1 1 0).2.1.map
      (fun s => s.pagamentos.map (fun p => (p.membro_id, p.despesa_id))))
      = [[(1, 1)], [(1, 1)]] ∧
    ((registrar_pagamento dbSolo 1 1 1 1 0).2.1.map
      (fun s => s.despesas.map Despesa.status))
      = [[StatusDespesa.pendente], [StatusDespesa.pago]] := by decide

/-- C3 (amended): every validation failure of `registrar_pagamento` aborts
with no stray writes — the state is unchanged and nothing is committed —
but a successful call is not one logical transaction: it commits twice,
first the payment insert with the expense rows untouched, then the
settlement recount; the final state differs from the first commit only in
the expense rows, so when the payment settles the expense an intermediate
state with the payment present and the status not yet updated is observable
between the two commits. -/
theorem registrar_pagamento_commit_trace (db : DB) (uid rid did mid now : Nat) :
    (∀ e, (registrar_pagamento db uid rid did mid now).2.2 = .error e →
      (registrar_pagamento db uid rid did mid now).1 = db ∧
      (registrar_pagamento db uid rid did mid now).2.1 = []) ∧
    (∀ pag, (registrar_pagamento db uid rid did mid now).2.2 = .ok pag →
      ∃ db1,
        (registrar_pagamento db uid rid did mid now).2.1
          = [db1, (registrar_pagamento db uid rid did mid now).1] ∧
        db1.despesas = db.despesas ∧
        db1.pagamentos = db.pagamentos ++ [pag] ∧
        (registrar_pagamento db uid rid did mid now).1.pagamentos = db1.pagamentos) := by
  cases hrep : db.republicas.find? (fun r => r.id == rid) with
  | none => simp [registrar_pagamento, hrep]
  | some rep =>
    by_cases huid : rep.user_id = uid
    · cases hdes : db.despesas.find?
          (fun d => d.id == did && d.republica_id == rid) with
      | none => simp [registrar_pagamento, hrep, huid, hdes]
      | some d0 =>
        by_cases hst : d0.status = StatusDespesa.pago
        · simp [registrar_pagamento, hrep, huid, hdes, hst]
        · cases hmem : db.membros.find? (fun m => m.id == mid) with
          | none => simp [registrar_pagamento, hrep, huid, hdes, hst, hmem]
          | some m0 =>
            by_cases hmr : m0.republica_id = rid
            · by_cases hdup : (db.pagamentos.find?
                  (fun p => p.membro_id == mid && p.despesa_id == did)).isSome = true
              · simp [registrar_pagamento, hrep, huid, hdes, hst, hmem, hmr, hdup]
              · rw [registrar_pagamento_ok_spec db uid rid did mid now rep d0 m0 hrep
                  huid hdes hst hmem hmr
                  (Option.not_isSome_iff_eq_none.mp hdup)]
                constructor
                · intro e he
                  simp at he
                · intro pag hpag
                  obtain rfl : regPagoRow db rid did mid now d0 = pag :=
                    Except.ok.inj hpag
                  refine ⟨regPagoInserted db rid did mid now d0, rfl, rfl, rfl, ?_⟩
                  rw [regPagoFinal]
                  split <;> rfl
            · simp [registrar_pagamento, hrep, huid, hdes, hst, hmem, hmr]
    · simp [registrar_pagamento, hrep, huid]

/-- Closed instance of `registrar_pagamento_commit_trace`: the settling call
on `dbSolo` commits first a state whose expense rows are still those of
`dbSolo` while already holding the final payment rows. -/
theorem registrar_pagamento_commit_trace_witness :
    (registrar_pagamento dbSolo 1 1 1 1 0).2.1.head?.map DB.despesas
        = some dbSolo.despesas ∧
    (registrar_pagamento dbSolo 1 1 1 1 0).2.1.head?.map DB.pagamentos
        = some (registrar_pagamento dbSolo 1 1 1 1 0).1.pagamentos := by
  obtain ⟨db1, h1, h2, h3, h4⟩ :=
    (registrar_pagamento_commit_trace dbSolo 1 1 1 1 0).2
      (regPagoRow dbSolo 1 1 1 0
        { id := 1, descricao := "Gas", valor_total := 150, data_vencimento := 30,
          categoria := .gas, republica_id := 1, status := .pendente }) rfl
  rw [h1]
  simp [h2, h4]

/-- C6 counterexample: the only member of `dbInactiveOnly` is already
deactivated, and the claim says a second Deactivate Member must fail with
NotFound; the handler instead reports success again, because its member
lookup filters on house scope and id only, never on the `ativo` flag. -/
theorem delete_member_already_inactive_refuted :
    (dbInactiveOnly.membros.map Membro.ativo) = [false] ∧
    ((delete_member dbInactiveOnly 1 1 1 9).2.2).toOption
      = some "Membro excluido" := by decide

/-- C6 (amended): Deactivate Member on a member id with no row in the house
fails with a NotFound-kind error (the fall-through raise whose detail names
the república), and on an existing member row it succeeds regardless of the
`ativo` flag — an already-deactivated member is simply deactivated again,
with `data_saida` refreshed — so the transition is repeatable and
reactivation is unsupported. -/
theorem delete_member_not_found_or_repeatable
    (db : DB) (uid rid mid now : Nat) (rep : Republica)
    (hrep : db.republicas.find? (fun r => r.id == rid) = some rep)
    (huid : rep.user_id = uid) :
    (db.membros.find? (fun m => m.republica_id == rid && m.id == mid) = none →
      (delete_member db uid rid mid now).2.2 = .error .republicaNaoEncontrada ∧
      ApiError.republicaNaoEncontrada.kind = .notFound) ∧
    (∀ m0, db.membros.find? (fun m => m.republica_id == rid && m.id == mid) = some m0 →
      (delete_member db uid rid mid now).2.2 = .ok "Membro excluido" ∧
      ∀ m ∈ (delete_member db uid rid mid now).1.membros,
        m.id = mid → m.ativo = false ∧ m.data_saida = some now) := by
  constructor
  · intro hmem
    exact ⟨by simp [delete_member, hrep, huid, hmem], rfl⟩
  · intro m0 hmem
    refine ⟨by simp [delete_member, hrep, huid, hmem], ?_⟩
    intro m hm hid
    have hfinal : (delete_member db uid rid mid now).1.membros
        = db.membros.map
            (fun m => if m.id == mid then
              { m with ativo := false, data_saida := some now, quarto_id := none }
              else m) := by
      simp [delete_member, hrep, huid, hmem]
    rw [hfinal] at hm
    simp only [List.mem_map] at hm
    obtain ⟨m1, _, rfl⟩ := hm
    by_cases h1 : m1.id = mid
    · simp [h1]
    · simp_all

/-- Closed instance of `delete_member_not_found_or_repeatable`: a missing
member id yields the 404, and re-deleting the already-inactive member of
`dbInactiveOnly` succeeds again. -/
theorem delete_member_not_found_or_repeatable_witness :
    (delete_member dbInactiveOnly 1 1 99 9).2.2
        = .error ApiError.republicaNaoEncontrada ∧
    (delete_member dbInactiveOnly 1 1 1 9).2.2 = .ok "Membro excluido" := by
  constructor
  · exact ((delete_member_not_found_or_repeatable dbInactiveOnly 1 1 99 9
      { id := 1, nome := "Casa", user_id := 1 } rfl rfl).1 (by decide)).1
  · exact ((delete_member_not_found_or_repeatable dbInactiveOnly 1 1 1 9
      { id := 1, nome := "Casa", user_id := 1 } rfl rfl).2
      { id := 1, fullname := "A", email := "a@x", telephone := "1",
        republica_id := 1, quarto_id := none, ativo := false, data_saida := some 5 }
      rfl).1

/-- A call of `listar_pagamentos_despesa` reads only the república, expense
and payment rows, so states agreeing on those three tables give identical
listings. -/
theorem listar_pagamentos_congr (db1 db2 : DB)
    (h1 : db1.republicas = db2.republicas) (h2 : db1.despesas = db2.despesas)
    (h3 : db1.pagamentos = db2.pagamentos) (uid rid did : Nat) :
    listar_pagamentos_despesa db1 uid rid did
      = listar_pagamentos_despesa db2 uid rid did := by
  unfold listar_pagamentos_despesa
  rw [h1, h2, h3]

/-- C7: a successful Deactivate Member performs one single commit whose only
change is mapping the member row to `ativo = false`, `data_saida = now`,
`quarto_id = none` (every other column and every other row kept verbatim);
the república, room, expense and payment tables are untouched, and
List Payments returns identical results before and after for every
house/expense query. -/
theorem delete_member_frame
    (db : DB) (uid rid mid now : Nat) (rep : Republica) (m0 : Membro)
    (hrep : db.republicas.find? (fun r => r.id == rid) = some rep)
    (huid : rep.user_id = uid)
    (hmem : db.membros.find? (fun m => m.republica_id == rid && m.id == mid) = some m0) :
    (delete_member db uid rid mid now).2.2 = .ok "Membro excluido" ∧
    (delete_member db uid rid mid now).2.1 = [(delete_member db uid rid mid now).1] ∧
    (delete_member db uid rid mid now).1.membros
      = db.membros.map (fun m => if m.id == mid then
          { m with ativo := false, data_saida := some now, quarto_id := none } else m) ∧
    (delete_member db uid rid mid now).1.pagamentos = db.pagamentos ∧
    (delete_member db uid rid mid now).1.despesas = db.despesas ∧
    (delete_member db uid rid mid now).1.republicas = db.republicas ∧
    (delete_member db uid rid mid now).1.quartos = db.quartos ∧
    (∀ uid2 rid2 did2,
      listar_pagamentos_despesa (delete_member db uid rid mid now).1 uid2 rid2 did2
        = listar_pagamentos_despesa db uid2 rid2 did2) := by
  have hdel : delete_member db uid rid mid now
      = ({ db with membros := db.membros.map (fun m => if m.id == mid then
            { m with ativo := false, data_saida := some now, quarto_id := none }
            else m) },
         [{ db with membros := db.membros.map (fun m => if m.id == mid then
            { m with ativo := false, data_saida := some now, quarto_id := none }
            else m) }],
         .ok "Membro excluido") := by
    simp [delete_member, hrep, huid, hmem]
  rw [hdel]
  refine ⟨rfl, rfl, rfl, rfl, rfl, rfl, rfl, ?_⟩
  intro uid2 rid2 did2
  exact listar_pagamentos_congr _ db rfl rfl rfl uid2 rid2 did2

/-- Closed instance of `delete_member_frame`: deactivating the member of
`dbSolo` commits once, leaves the payment table untouched and the payment
listing unchanged. -/
theorem delete_member_frame_witness :
    (delete_member dbSolo 1 1 1 9).2.2 = .ok "Membro excluido" ∧
    (delete_member dbSolo 1 1 1 9).1.pagamentos = dbSolo.pagamentos ∧
    (delete_member dbSolo 1 1 1 9).2.1 = [(delete_member dbSolo 1 1 1 9).1] ∧
    listar_pagamentos_despesa (delete_member dbSolo 1 1 1 9).1 1 1 1
      = listar_pagamentos_despesa dbSolo 1 1 1 := by
  have h := delete_member_frame dbSolo 1 1 1 9
    { id := 1, nome := "Casa", user_id := 1 }
    { id := 1, fullname := "A", email := "a@x", telephone := "1",
      republica_id := 1, quarto_id := none, ativo := true, data_saida := none }
    rfl rfl rfl
  exact ⟨h.1, h.2.2.2.1, h.2.1, h.2.2.2.2.2.2.2 1 1 1⟩

/-- C8: member email uniqueness is scoped to the active subset.  When a
member with email E exists but is deactivated, and no active member holds E
(or the requested phone), Create Member with email E succeeds and yields a
fresh active row; whenever some active member already holds E, Create
Member fails with the Conflict-kind "Membro ja existe" error. -/
theorem create_member_active_scoped_email
    (db : DB) (uid rid : Nat) (rep : Republica) (input : MemberIn)
    (hrep : db.republicas.find? (fun r => r.id == rid) = some rep)
    (huid : rep.user_id = uid) :
    ((∃ m ∈ db.membros, m.email = input.email ∧ m.ativo = false) →
      db.membros.find? (fun m => m.email == input.email && m.ativo) = none →
      db.membros.find? (fun m => m.telephone == input.telephone && m.ativo) = none →
      input.quarto_id = none →
      create_member db uid rid input =
        .ok ({ db with
                membros := db.membros ++
                  [{ id := db.nextMembroId, fullname := input.fullname,
                     email := input.email, telephone := input.telephone,
                     republica_id := rid, quarto_id := input.quarto_id,
                     ativo := true, data_saida := none }]
                nextMembroId := db.nextMembroId + 1 },
             { id := db.nextMembroId, fullname := input.fullname,
               email := input.email, telephone := input.telephone,
               republica_id := rid, quarto_id := input.quarto_id,
               ativo := true, data_saida := none })) ∧
    (∀ m0, db.membros.find? (fun m => m.email == input.email && m.ativo) = some m0 →
      create_member db uid rid input = .error .membroJaExiste ∧
      ApiError.membroJaExiste.kind = .conflict) := by
  constructor
  · intro _ hemail htel hquarto
    simp [create_member, hrep, huid, hemail, htel, hquarto]
  · intro m0 hemail
    exact ⟨by simp [create_member, hrep, huid, hemail], rfl⟩

/-- Closed instance of `create_member_active_scoped_email`: in
`dbInactiveOnly` the email of the deactivated member is reused
successfully, while in `dbPair` the same email is held by an active member
and the creation conflicts. -/
theorem create_member_active_scoped_email_witness :
    (create_member dbInactiveOnly 1 1
        { fullname := "C", email := "a@x", telephone := "9", quarto_id := none }).isOk
      = true ∧
    create_member dbPair 1 1
        { fullname := "C", email := "a@x", telephone := "9", quarto_id := none }
      = .error ApiError.membroJaExiste := by
  constructor
  · have h := (create_member_active_scoped_email dbInactiveOnly 1 1
      { id := 1, nome := "Casa", user_id := 1 }
      { fullname := "C", email := "a@x", telephone := "9", quarto_id := none }
      rfl rfl).1
      ⟨{ id := 1, fullname := "A", email := "a@x", telephone := "1",
         republica_id := 1, quarto_id := none, ativo := false, data_saida := some 5 },
        by decide, rfl, rfl⟩
      rfl rfl rfl
    rw [h]
    rfl
  · exact ((create_member_active_scoped_email dbPair 1 1
      { id := 1, nome := "Casa", user_id := 1 }
      { fullname := "C", email := "a@x", telephone := "9", quarto_id := none }
      rfl rfl).2
      { id := 1, fullname := "A", email := "a@x", telephone := "1",
        republica_id := 1, quarto_id := none, ativo := true, data_saida := none }
      rfl).1

/-! ### Frame lemmas: which operations touch the expense rows -/

theorem create_member_despesas (db : DB) (uid rid : Nat) (inp : MemberIn)
    (db1 : DB) (m1 : Membro) (h : create_member db uid rid inp = .ok (db1, m1)) :
    db1.despesas = db.despesas := by
  unfold create_member at h
  repeat' (split at h)
  all_goals simp_all
  all_goals rw [← h.1]

theorem update_member_despesas (db : DB) (uid rid mid : Nat) (inp : MemberIn)
    (db1 : DB) (m1 : Membro) (h : update_member db uid rid mid inp = .ok (db1, m1)) :
    db1.despesas = db.despesas := by
  unfold update_member at h
  repeat' (split at h)
  all_goals simp_all
  all_goals rw [← h.1]

theorem delete_member_despesas (db : DB) (uid rid mid now : Nat) :
    (delete_member db uid rid mid now).1.despesas = db.despesas := by
  unfold delete_member
  repeat' split
  all_goals simp_all

theorem create_despesa_spec (db : DB) (uid rid : Nat) (inp : DespesaIn)
    (db1 : DB) (d1 : Despesa) (h : create_despesa db uid rid inp = .ok (db1, d1)) :
    db1.despesas = db.despesas ++ [d1] ∧ d1.id = db.nextDespesaId ∧
      d1.status = .pendente := by
  unfold create_despesa at h
  repeat' (split at h)
  all_goals simp_all
  obtain ⟨h1, h2⟩ := h
  subst h1
  subst h2
  exact ⟨rfl, rfl, rfl⟩

theorem update_despesa_status (db : DB) (uid rid did2 : Nat) (inp : DespesaIn)
    (db1 : DB) (d1 : Despesa) (h : update_despesa db uid rid did2 inp = .ok (db1, d1)) :
    ∀ d ∈ db1.despesas, ∃ d0 ∈ db.despesas, d.id = d0.id ∧ d.status = d0.status := by
  unfold update_despesa at h
  repeat' (split at h)
  all_goals simp_all
  obtain ⟨h1, h2⟩ := h
  subst h1
  intro d hd
  simp only [List.mem_map] at hd
  obtain ⟨d0, hd0, rfl⟩ := hd
  refine ⟨d0, hd0, ?_, ?_⟩ <;> by_cases h3 : d0.id = did2 <;> simp [h3]

theorem delete_despesa_sub (db : DB) (uid rid did2 : Nat)
    (db1 : DB) (s : String) (h : delete_despesa db uid rid did2 = .ok (db1, s)) :
    ∀ d ∈ db1.despesas, d ∈ db.despesas := by
  unfold delete_despesa at h
  repeat' (split at h)
  all_goals simp_all
  obtain ⟨h1, h2⟩ := h
  subst h1
  intro d hd
  exact List.mem_of_mem_filter hd

theorem registrar_pagamento_despesas_mono (db : DB) (uid rid did2 mid now : Nat) :
    ∀ d ∈ (registrar_pagamento db uid rid did2 mid now).1.despesas,
      ∃ d0 ∈ db.despesas, d.id = d0.id ∧ (d.status = d0.status ∨ d.status = .pago) := by
  intro d hd
  unfold registrar_pagamento at hd
  repeat' (split at hd)
  all_goals try exact ⟨d, hd, rfl, Or.inl rfl⟩
  by_cases hz : numMembros db rid = 0
  · rw [if_pos hz] at hd
    exact ⟨d, hd, rfl, Or.inl rfl⟩
  · rw [if_neg hz] at hd
    rw [apply_ite DB.despesas] at hd
    split at hd
    · simp only [List.mem_map] at hd
      obtain ⟨d0, hd0, rfl⟩ := hd
      by_cases h2 : d0.id = did2
      · exact ⟨d0, hd0, by simp [h2], by simp [h2]⟩
      · exact ⟨d0, hd0, by simp [h2], by simp [h2]⟩
    · exact ⟨d, hd, rfl, Or.inl rfl⟩

/-- C9: the expense status machine allows only `pendente → pago`.  Create
Expense always yields status `pendente`, and once every row of an expense id
is `pago` it stays `pago` after any state-changing call of the embedded
core — member create/update/delete, expense create/update/delete, and
further Register Payment calls (which reject an already-paid expense and
only ever write `pago`). -/
theorem despesa_status_machine
    (db : DB) (did : Nat) (op : Op)
    (hpaid : ∀ d ∈ db.despesas, d.id = did → d.status = .pago)
    (halloc : did < db.nextDespesaId) :
    (∀ uid rid inp db1 d1, create_despesa db uid rid inp = .ok (db1, d1) →
      d1.status = .pendente) ∧
    (∀ d ∈ (applyOp op db).despesas, d.id = did → d.status = .pago) := by
  constructor
  · intro uid rid inp db1 d1 h
    exact (create_despesa_spec db uid rid inp db1 d1 h).2.2
  · cases op with
    | createMember u r m =>
      intro d hd hid
      cases hc : create_member db u r m with
      | error e =>
        simp only [applyOp, hc] at hd
        exact hpaid d hd hid
      | ok p =>
        obtain ⟨db1, m1⟩ := p
        simp only [applyOp, hc] at hd
        rw [create_member_despesas db u r m db1 m1 hc] at hd
        exact hpaid d hd hid
    | updateMember u r mid m =>
      intro d hd hid
      cases hc : update_member db u r mid m with
      | error e =>
        simp only [applyOp, hc] at hd
        exact hpaid d hd hid
      | ok p =>
        obtain ⟨db1, m1⟩ := p
        simp only [applyOp, hc] at hd
        rw [update_member_despesas db u r mid m db1 m1 hc] at hd
        exact hpaid d hd hid
    | deleteMember u r mid now =>
      intro d hd hid
      simp only [applyOp] at hd
      rw [delete_member_despesas db u r mid now] at hd
      exact hpaid d hd hid
    | createDespesa u r inp =>
      intro d hd hid
      cases hc : create_despesa db u r inp with
      | error e =>
        simp only [applyOp, hc] at hd
        exact hpaid d hd hid
      | ok p =>
        obtain ⟨db1, d1⟩ := p
        obtain ⟨hdes, hids, _⟩ := create_despesa_spec db u r inp db1 d1 hc
        simp only [applyOp, hc] at hd
        rw [hdes] at hd
        rcases List.mem_append.mp hd with h0 | h1
        · exact hpaid d h0 hid
        · have : d = d1 := by simpa using h1
          subst this
          omega
    | updateDespesa u r did2 inp =>
      intro d hd hid
      cases hc : update_despesa db u r did2 inp with
      | error e =>
        simp only [applyOp, hc] at hd
        exact hpaid d hd hid
      | ok p =>
        obtain ⟨db1, d1⟩ := p
        simp only [applyOp, hc] at hd
        obtain ⟨d0, hd0, hideq, hsteq⟩ :=
          update_despesa_status db u r did2 inp db1 d1 hc d hd
        rw [hsteq]
        exact hpaid d0 hd0 (hideq ▸ hid)
    | deleteDespesa u r did2 =>
      intro d hd hid
      cases hc : delete_despesa db u r did2 with
      | error e =>
        simp only [applyOp, hc] at hd
        exact hpaid d hd hid
      | ok p =>
        obtain ⟨db1, s⟩ := p
        simp only [applyOp, hc] at hd
        exact hpaid d (delete_despesa_sub db u r did2 db1 s hc d hd) hid
    | registrarPagamento u r did2 mid now =>
      intro d hd hid
      simp only [applyOp] at hd
      obtain ⟨d0, hd0, hideq, hsteq⟩ :=
        registrar_pagamento_despesas_mono db u r did2 mid now d hd
      rcases hsteq with h | h
      · rw [h]
        exact hpaid d0 hd0 (hideq ▸ hid)
      · exact h

/-- House 1 owned by user 1 with one active member and one expense already
paid. -/
def dbPaid : DB :=
  { republicas := [{ id := 1, nome := "Casa", user_id := 1 }]
    membros :=
      [{ id := 1, fullname := "A", email := "a@x", telephone := "1",
         republica_id := 1, quarto_id := none, ativo := true, data_saida := none }]
    quartos := []
    despesas :=
      [{ id := 1, descricao := "Luz", valor_total := 100, data_vencimento := 30,
         categoria := .luz, republica_id := 1, status := .pago }]
    pagamentos :=
      [{ id := 1, valor_pago := 100, data_pagamento := 3, membro_id := 1,
         despesa_id := 1 }]
    nextMembroId := 2
    nextDespesaId := 2
    nextPagamentoId := 2 }

/-- Closed instance of `despesa_status_machine`: updating the paid expense
of `dbPaid` leaves its status `pago`, and a Create Expense on `dbPaid`
yields a `pendente` row. -/
theorem despesa_status_machine_witness :
    (∀ d ∈ (applyOp (Op.updateDespesa 1 1 1
        { descricao := "Nova", valor_total := 70, data_vencimento := 9,
          categoria := .agua }) dbPaid).despesas,
      d.id = 1 → d.status = .pago) ∧
    (∀ uid rid inp db1 d1, create_despesa dbPaid uid rid inp = .ok (db1, d1) →
      d1.status = .pendente) := by
  have h := despesa_status_machine dbPaid 1
    (Op.updateDespesa 1 1 1
      { descricao := "Nova", valor_total := 70, data_vencimento := 9,
        categoria := .agua })
    (by decide) (by decide)
  exact ⟨h.2, h.1⟩

end RepublicaFacil
